import Mathlib

/-!
Verification development for the cpu-temp monitor (src/main.py).

The program is embedded shallowly:
* temperatures are modelled as rationals;
* the sensor source (psutil.sensors_temperatures) is modelled as an
  `Except String RawTemps` value: `.error e` models the query raising an
  exception with message `e`, `.ok raw` models the returned mapping from
  chip key to reading list (an association list, mirroring a Python dict);
* the collector, the three renderers and the driver are translated
  function by function from the source;
* Python's stable `list.sort(key=...)` is modelled by `List.mergeSort`
  (which is stable) on the boolean comparison of the extracted keys;
* `f-string` one-decimal float formatting is modelled by rounding the
  rational to tenths (ties to even, as CPython float formatting does)
  and printing the two parts.
-/

namespace CpuTemp

/-! ### ANSI escape constants (src lines 11-17) -/

def ANSI_RESET : String := "\x1b[0m"

def ANSI_RED : String := "\x1b[31m"

def ANSI_GREEN : String := "\x1b[32m"

def ANSI_YELLOW : String := "\x1b[33m"

def ANSI_BLUE : String := "\x1b[34m"

def ANSI_CYAN : String := "\x1b[36m"

def ANSI_WHITE : String := "\x1b[37m"

/-! ### Data model -/

/-- One reading coming from the sensor source: label plus the three
temperatures, as in a psutil `shwtemp` entry. -/
structure SensorReading where
  label : String
  current : ℚ
  high : ℚ
  critical : ℚ
deriving DecidableEq

/-- The `overall_cpu_temp` record built by the collector (src lines 77-82). -/
structure OverallReading where
  label : String
  current : ℚ
  high : ℚ
  critical : ℚ
deriving DecidableEq

/-- One entry of `cores_temp` built by the collector (src lines 88-94). -/
structure CoreReading where
  label : String
  original_label : String
  current : ℚ
  high : ℚ
  critical : ℚ
deriving DecidableEq

/-- The collector result dictionary.  `timestamp`, `overall_cpu_temp` and
`cores_temp` are always-present keys (src lines 50-54); `error` and
`available_sensor_keys` model the optional keys added on failure paths. -/
structure Snapshot where
  timestamp : String
  overall_cpu_temp : Option OverallReading
  cores_temp : List CoreReading
  error : Option String
  available_sensor_keys : Option (List String)
deriving DecidableEq

/-- The mapping returned by the sensor source: chip key to reading list. -/
abbrev RawTemps := List (String × List SensorReading)

/-- `raw.get(key)` on the Python dict. -/
def dictGet (raw : RawTemps) (key : String) : Option (List SensorReading) :=
  (raw.find? (fun kv => kv.1 == key)).map (fun kv => kv.2)

/-! ### get_temp_color (src lines 28-35) -/

def get_temp_color (temperature : ℚ) : String :=
  if temperature < 60 then ANSI_GREEN
  else if temperature < 80 then ANSI_YELLOW
  else ANSI_RED

/-! ### get_sort_key (src lines 37-43)

`re.search` with one group of one-or-more digits finds the first
(leftmost, maximal) run of decimal digits; `int` of that run is the key,
9999 when no digit occurs. -/

/-- Numeric value of a digit run, as Python `int` of the matched group. -/
def digitsVal (cs : List Char) : ℕ :=
  cs.foldl (fun a c => 10 * a + (c.toNat - 48)) 0

/-- First maximal run of digits in a character list, if any. -/
def firstDigitRun : List Char → Option (List Char)
  | [] => none
  | c :: rest =>
    if c.isDigit then some (c :: rest.takeWhile Char.isDigit)
    else firstDigitRun rest

/-- The sort key extracted from a label string. -/
def labelSortKey (label : String) : ℕ :=
  match firstDigitRun label.toList with
  | some ds => digitsVal ds
  | none => 9999

def get_sort_key (sensor : SensorReading) : ℕ :=
  labelSortKey sensor.label

/-- The comparison Python's stable sort effectively uses with this key. -/
def coreLE (a b : SensorReading) : Bool :=
  get_sort_key a ≤ get_sort_key b

/-! ### Collector (src lines 45-100) -/

/-- Substring test on character lists, modelling Python's `in` operator
for strings. -/
def containsSub (pat : List Char) : List Char → Bool
  | [] => pat.isEmpty
  | c :: rest => pat.isPrefixOf (c :: rest) || containsSub pat rest

/-- Test of src line 71: "package id" in sensor.label.lower(). -/
def isPackageSensor (sensor : SensorReading) : Bool :=
  containsSub "package id".toList (sensor.label.toList.map Char.toLower)

/-- One iteration of the partition loop (src lines 70-74): a matching
label overwrites the package slot (last wins), anything else is appended
to the core list. -/
def partitionStep (acc : Option SensorReading × List SensorReading)
    (sensor : SensorReading) : Option SensorReading × List SensorReading :=
  if isPackageSensor sensor then (some sensor, acc.2)
  else (acc.1, acc.2 ++ [sensor])

/-- The whole partition loop. -/
def partitionSensors (sensors : List SensorReading) :
    Option SensorReading × List SensorReading :=
  sensors.foldl partitionStep (none, [])

/-- Python's `x or y` on optional reading lists: `None` and the empty
list are falsy (src lines 58-60). -/
def pyOr (a b : Option (List SensorReading)) : Option (List SensorReading) :=
  match a with
  | none => b
  | some [] => b
  | some l => some l

/-- Truthiness of the selected value, as tested by src line 62. -/
def truthyList : Option (List SensorReading) → Bool
  | none => false
  | some [] => false
  | some (_ :: _) => true

/-- The chained lookup of src lines 58-60. -/
def selectSensors (raw : RawTemps) : Option (List SensorReading) :=
  pyOr (pyOr (dictGet raw "coretemp") (dictGet raw "k10temp")) (dictGet raw "acpitz")

/-- The error message of src line 63. -/
def noCpuMsg : String :=
  "No CPU temperature data found. This script might not support your system\x27s sensor names."

/-- The overall record of src lines 77-82. -/
def overallOf (sensor : SensorReading) : OverallReading :=
  { label := "Overall"
    current := sensor.current
    high := sensor.high
    critical := sensor.critical }

/-- One numbered core entry (src lines 88-94). -/
def mkCoreReading (n : ℕ) (sensor : SensorReading) : CoreReading :=
  { label := "Core " ++ toString n
    original_label := sensor.label
    current := sensor.current
    high := sensor.high
    critical := sensor.critical }

/-- The numbering loop of src lines 86-95, counter starting at `n`. -/
def numberCoresFrom : ℕ → List SensorReading → List CoreReading
  | _, [] => []
  | n, s :: rest => mkCoreReading n s :: numberCoresFrom (n + 1) rest

/-- `get_cpu_data_structured` (src lines 45-100).  `timestamp` is the
captured instant (src line 51); `source` is the sensor query outcome.
When the query itself raises, Python's `locals()` check makes
`available_sensor_keys` the empty list. -/
def get_cpu_data_structured (timestamp : String)
    (source : Except String RawTemps) : Snapshot :=
  match source with
  | .error e =>
      { timestamp := timestamp
        overall_cpu_temp := none
        cores_temp := []
        error := some ("Error during data collection: " ++ e)
        available_sensor_keys := some [] }
  | .ok raw =>
      if truthyList (selectSensors raw) then
        let sensors := (selectSensors raw).getD []
        let pc := partitionSensors sensors
        { timestamp := timestamp
          overall_cpu_temp := pc.1.map overallOf
          cores_temp := numberCoresFrom 1 (pc.2.mergeSort coreLE)
          error := none
          available_sensor_keys := none }
      else
        { timestamp := timestamp
          overall_cpu_temp := none
          cores_temp := []
          error := some noCpuMsg
          available_sensor_keys := some (raw.map (fun kv => kv.1)) }

/-! ### One-decimal float formatting

Models Python's one-decimal f-string formatting of a temperature: the
value is rounded to tenths, ties to even, and printed as integer part,
a dot and the tenths digit. -/

/-- Round `10 * x` to the nearest integer, ties to even, stated on the
numerator and denominator (for nonnegative `x`, `n / d` and `n % d` give
the integer part of `10 * x` and its remainder). -/
def roundTenths (x : ℚ) : ℤ :=
  let n : ℤ := x.num * 10
  let d : ℤ := (x.den : ℤ)
  let q : ℤ := n / d
  let r : ℤ := n % d
  if 2 * r < d then q
  else if d < 2 * r then q + 1
  else if q % 2 = 0 then q else q + 1

/-- Formatting of a nonnegative value to one decimal. -/
def fmt1nn (x : ℚ) : String :=
  let n := roundTenths x
  toString (n / 10) ++ "." ++ toString (n % 10)

/-- One-decimal formatting, sign handled as Python does. -/
def fmt1 (x : ℚ) : String :=
  if x < 0 then "-" ++ fmt1nn (-x) else fmt1nn x

/-- A formatted temperature with its unit suffix. -/
def tempStr (x : ℚ) : String := fmt1 x ++ "°C"

/-! ### Summary renderer (src lines 244-259)

Python's `str.replace` (all non-overlapping occurrences, left to right)
is modelled on character lists with a fuel argument: every step consumes
at least one character, so fuel equal to the length suffices. -/

def replaceFrom : ℕ → List Char → List Char → List Char → List Char
  | 0, _, _, s => s
  | _ + 1, _, _, [] => []
  | fuel + 1, pat, repl, c :: rest =>
    if pat.isPrefixOf (c :: rest) then
      repl ++ replaceFrom fuel pat repl ((c :: rest).drop pat.length)
    else c :: replaceFrom fuel pat repl rest

/-- Python `s.replace(pat, repl)` for a non-empty pattern. -/
def pyReplace (s pat repl : String) : String :=
  String.mk (replaceFrom s.toList.length pat.toList repl.toList s.toList)

/-- The core segment of src line 255. -/
def coreSegment (core : CoreReading) : String :=
  pyReplace core.label "Core " "C" ++ ": " ++ fmt1 core.current ++ "°C"

/-- The single summary line built by src lines 244-257. -/
def short_output (cpu_data : Snapshot) : String :=
  let overallSeg :=
    match cpu_data.overall_cpu_temp with
    | some ov => "OV: " ++ fmt1 ov.current ++ "°C"
    | none => "OV: N/A"
  String.intercalate " | " (overallSeg :: cpu_data.cores_temp.map coreSegment)

/-! ### Dashboard renderer (src lines 103-202)

The renderer is modelled as the list of lines written to stdout, one
entry per written line. -/

/-- Left-justified fixed-width field, as a Python format spec. -/
def padded (s : String) (w : ℕ) : String :=
  s ++ String.mk (List.replicate (w - s.length) ' ')

def rule55 : String := String.mk (List.replicate 55 '-')

/-- LINE_LENGTH = (12 + 3 * 8) * 2 + 5 (src line 152). -/
def rule77 : String := String.mk (List.replicate 77 '-')

def monitorTitle : String := ANSI_CYAN ++ "--- CPU Temperature Monitor ---" ++ ANSI_RESET

def yellowLine (s : String) : String := ANSI_YELLOW ++ s ++ ANSI_RESET

/-- The keys line of src line 132. -/
def availableKeysLine (ks : List String) : String :=
  yellowLine ("Available sensor keys: " ++ String.intercalate ", " ks)

/-- The notice of src line 137. -/
def noOverallMsg : String := "No \x27Overall\x27 (Package) temperature data found."

/-- The overall header block (src lines 121-128). -/
def overallBlock (pkg : OverallReading) : List String :=
  [ rule55
  , ANSI_BLUE ++ padded "Overall" 12 ++ padded "Current" 8 ++ padded "High" 8
      ++ padded "Critical" 8 ++ ANSI_RESET
  , rule55
  , padded "" 12 ++ get_temp_color pkg.current ++ padded (tempStr pkg.current) 8
      ++ ANSI_RESET ++ padded (tempStr pkg.high) 8 ++ ANSI_RESET
      ++ padded (tempStr pkg.critical) 8 ++ ANSI_RESET
  , rule55 ]

/-- One cell of the two-column core table (src lines 178-181). -/
def coreCell (info : CoreReading) : String :=
  ANSI_WHITE ++ padded info.label 12 ++ ANSI_RESET
    ++ get_temp_color info.current ++ padded (tempStr info.current) 8 ++ ANSI_RESET
    ++ padded (tempStr info.high) 8 ++ ANSI_RESET
    ++ padded (tempStr info.critical) 8 ++ ANSI_RESET

/-- The row loop of src lines 168-199; the right column may run out,
leaving the right cell empty. -/
def coreRows : List CoreReading → List CoreReading → List String
  | [], _ => []
  | c1 :: r1, [] => (coreCell c1 ++ "     ") :: coreRows r1 []
  | c1 :: r1, c2 :: r2 => (coreCell c1 ++ "     " ++ coreCell c2) :: coreRows r1 r2

/-- The two-column header row (src lines 157-158). -/
def coreHeaderRow : String :=
  let col := ANSI_BLUE ++ padded "Core" 12 ++ padded "Cur" 8 ++ padded "Hi" 8
    ++ padded "Crit" 8 ++ ANSI_RESET
  col ++ "     " ++ col

/-- The per-core section (src lines 141-202). -/
def coresSection (cores : List CoreReading) : List String :=
  if cores.isEmpty then
    [ yellowLine "No individual core temperature data available.", rule55 ]
  else
    let mid := (cores.length + 1) / 2
    [ ANSI_CYAN ++ "--- Individual Cores ---" ++ ANSI_RESET
    , rule77, coreHeaderRow, rule77 ]
      ++ coreRows (cores.take mid) (cores.drop mid) ++ [rule77]

/-- `display_cpu_temperatures` (src lines 103-202), as the list of lines
written.  The branch order mirrors the source: the overall block wins,
then the error branch (which returns early), then the no-overall notice. -/
def display_cpu_temperatures (cpu_data : Snapshot) : List String :=
  monitorTitle ::
    match cpu_data.overall_cpu_temp with
    | some pkg => overallBlock pkg ++ coresSection cpu_data.cores_temp
    | none =>
      match cpu_data.error with
      | some e =>
          yellowLine e ::
            ((match cpu_data.available_sensor_keys with
              | some ks => [availableKeysLine ks]
              | none => []) ++ [rule55])
      | none =>
          yellowLine noOverallMsg :: rule55 :: coresSection cpu_data.cores_temp

/-! ### Export document (json.dumps of the collector dict)

The serialized document is modelled at tree level: `snapshotToJson`
builds the document the dict serializes to, `snapshotFromJson` is the
re-parse back into a Snapshot. -/

inductive Json where
  | null
  | str (s : String)
  | num (q : ℚ)
  | arr (elems : List Json)
  | obj (fields : List (String × Json))

def overallToJson (ov : OverallReading) : Json :=
  .obj [("label", .str ov.label), ("current", .num ov.current),
        ("high", .num ov.high), ("critical", .num ov.critical)]

def coreToJson (core : CoreReading) : Json :=
  .obj [("label", .str core.label), ("original_label", .str core.original_label),
        ("current", .num core.current), ("high", .num core.high),
        ("critical", .num core.critical)]

/-- The document produced for a Snapshot: the three always-present keys
in dict insertion order, then the optional keys when they were added. -/
def snapshotToJson (s : Snapshot) : Json :=
  .obj ([("timestamp", .str s.timestamp),
         ("overall_cpu_temp",
           match s.overall_cpu_temp with
           | some ov => overallToJson ov
           | none => .null),
         ("cores_temp", .arr (s.cores_temp.map coreToJson))]
    ++ (match s.error with
        | some e => [("error", .str e)]
        | none => [])
    ++ (match s.available_sensor_keys with
        | some ks => [("available_sensor_keys", .arr (ks.map Json.str))]
        | none => []))

def jstrOf : Json → Option String
  | .str s => some s
  | _ => none

def jnumOf : Json → Option ℚ
  | .num q => some q
  | _ => none

def jarrOf : Json → Option (List Json)
  | .arr xs => some xs
  | _ => none

def jfieldsOf : Json → Option (List (String × Json))
  | .obj fs => some fs
  | _ => none

def jlookup (fs : List (String × Json)) (key : String) : Option Json :=
  (fs.find? (fun kv => kv.1 == key)).map (fun kv => kv.2)

/-- Key-presence test on a document. -/
def jhasKey (j : Json) (key : String) : Bool :=
  match j with
  | .obj fs => fs.any (fun kv => kv.1 == key)
  | _ => false

def overallFromJson (j : Json) : Option OverallReading := do
  let fs ← jfieldsOf j
  let label ← jstrOf (← jlookup fs "label")
  let current ← jnumOf (← jlookup fs "current")
  let high ← jnumOf (← jlookup fs "high")
  let critical ← jnumOf (← jlookup fs "critical")
  pure { label := label, current := current, high := high, critical := critical }

def coreFromJson (j : Json) : Option CoreReading := do
  let fs ← jfieldsOf j
  let label ← jstrOf (← jlookup fs "label")
  let original ← jstrOf (← jlookup fs "original_label")
  let current ← jnumOf (← jlookup fs "current")
  let high ← jnumOf (← jlookup fs "high")
  let critical ← jnumOf (← jlookup fs "critical")
  pure { label := label, original_label := original, current := current,
         high := high, critical := critical }

/-- Element-wise parse of the cores array. -/
def parseCores : List Json → Option (List CoreReading)
  | [] => some []
  | j :: rest => do
      let c ← coreFromJson j
      let cs ← parseCores rest
      pure (c :: cs)

/-- Element-wise parse of the available-keys array. -/
def parseStrs : List Json → Option (List String)
  | [] => some []
  | j :: rest => do
      let s ← jstrOf j
      let ss ← parseStrs rest
      pure (s :: ss)

/-- Parse of the overall field: JSON null maps back to an absent
reading. -/
def parseOverallField : Json → Option (Option OverallReading)
  | Json.null => some none
  | o => (overallFromJson o).map some

/-- Parse of the optional error key: an absent key maps back to an
absent error. -/
def parseErrorField (fs : List (String × Json)) : Option (Option String) :=
  match jlookup fs "error" with
  | none => some none
  | some ej => (jstrOf ej).map some

/-- Parse of the optional available-keys key. -/
def parseKeysField (fs : List (String × Json)) : Option (Option (List String)) :=
  match jlookup fs "available_sensor_keys" with
  | none => some none
  | some kj =>
    match jarrOf kj with
    | none => none
    | some ks => (parseStrs ks).map some

/-- Re-parsing an export document into a Snapshot. -/
def snapshotFromJson (j : Json) : Option Snapshot := do
  let fs ← jfieldsOf j
  let timestamp ← jstrOf (← jlookup fs "timestamp")
  let overall ← parseOverallField (← jlookup fs "overall_cpu_temp")
  let coresJson ← jarrOf (← jlookup fs "cores_temp")
  let cores ← parseCores coresJson
  let error ← parseErrorField fs
  let keys ← parseKeysField fs
  pure { timestamp := timestamp, overall_cpu_temp := overall, cores_temp := cores,
         error := error, available_sensor_keys := keys }

/-! ### Driver (src lines 205-270) -/

/-- The two terminal modes selected by the flags. -/
inductive TermMode where
  | jsonMode
  | shortMode
deriving DecidableEq

/-- Outcome of one terminal-mode run: the exit code, the lines written to
stderr, whether the requested renderer ran, and its output when it did. -/
structure TermRun where
  exitCode : ℕ
  stderrLines : List String
  rendererInvoked : Bool
  outDoc : Option Json
  outLine : Option String

/-- The terminal-mode branch of `main` (src lines 225-259), applied to
the snapshot the single collection produced. -/
def run_terminal (mode : TermMode) (cpu_data : Snapshot) : TermRun :=
  match cpu_data.error with
  | some e =>
      { exitCode := 1
        stderrLines :=
          (ANSI_RED ++ "Error fetching CPU data: " ++ e ++ ANSI_RESET) ::
            (match cpu_data.available_sensor_keys with
             | some ks =>
                 [ANSI_YELLOW ++ "Available sensor keys: "
                   ++ String.intercalate ", " ks ++ ANSI_RESET]
             | none => [])
        rendererInvoked := false
        outDoc := none
        outLine := none }
  | none =>
      match mode with
      | .jsonMode =>
          { exitCode := 0, stderrLines := [], rendererInvoked := true
            outDoc := some (snapshotToJson cpu_data), outLine := none }
      | .shortMode =>
          { exitCode := 0, stderrLines := [], rendererInvoked := true
            outDoc := none, outLine := some (short_output cpu_data) }

/-- The dashboard loop (src lines 262-270) over a finite trace of
collector results: every snapshot is rendered, error or not, and the
loop keeps going to the next iteration. -/
def dashboard_run : List Snapshot → List (List String)
  | [] => []
  | s :: rest => display_cpu_temperatures s :: dashboard_run rest

/-! ### Concrete inputs used by witnesses and counterexamples -/

/-- The reading a `cores_temp` entry came from. -/
def coreToSensor (core : CoreReading) : SensorReading :=
  { label := core.original_label
    current := core.current
    high := core.high
    critical := core.critical }

/-- A reading with fixed thresholds, for concrete test inputs. -/
def mkReading (label : String) (current : ℚ) : SensorReading :=
  { label := label, current := current, high := 80, critical := 100 }

/-- A mapping whose recognized chip key holds an empty reading list. -/
def rawEmptyCore : RawTemps := [("coretemp", [])]

/-- A mapping with none of the three recognized chip keys. -/
def rawUnknown : RawTemps := [("nvme", [mkReading "Composite" 35]), ("iwlwifi_1", [])]

/-- A coretemp mapping with a package reading and three cores listed out
of order. -/
def rawTypical : RawTemps :=
  [("coretemp",
    [mkReading "Package id 0" 45, mkReading "Core 2" 50,
     mkReading "Core 0" 61, mkReading "Core 1" 85])]

/-- A core list where a digit label has a key above 9999, so it sorts
after the digit-free label. -/
def rawBigDigits : RawTemps :=
  [("coretemp", [mkReading "Core 10000" 50, mkReading "zz" 61])]

/-- The reading list of rawTypical. -/
def typicalSensors : List SensorReading :=
  [mkReading "Package id 0" 45, mkReading "Core 2" 50,
   mkReading "Core 0" 61, mkReading "Core 1" 85]

/-- The non-package readings of rawTypical, in original order. -/
def typicalCandidates : List SensorReading :=
  [mkReading "Core 2" 50, mkReading "Core 0" 61, mkReading "Core 1" 85]

/-- The snapshot of the summary-renderer example: overall at 45.0 and two
cores at 72.3 and 81.9. -/
def exampleSnapshot : Snapshot :=
  { timestamp := "2026-01-01T00:00:00"
    overall_cpu_temp := some { label := "Overall", current := 45, high := 80, critical := 100 }
    cores_temp :=
      [ { label := "Core 1", original_label := "Core 0", current := 72.3, high := 80, critical := 100 }
      , { label := "Core 2", original_label := "Core 1", current := 81.9, high := 80, critical := 100 } ]
    error := none
    available_sensor_keys := none }

/-- An error snapshot whose available-keys field is present but empty, as
the collector produces for an empty mapping. -/
def errSnapEmptyKeys : Snapshot :=
  { timestamp := "t"
    overall_cpu_temp := none
    cores_temp := []
    error := some "boom"
    available_sensor_keys := some [] }

/-! ### Helper lemmas -/

theorem numberCoresFrom_length (n : ℕ) (l : List SensorReading) :
    (numberCoresFrom n l).length = l.length := by
  induction l generalizing n with
  | nil => rfl
  | cons s rest ih => simp [numberCoresFrom, ih]

theorem numberCoresFrom_map_toSensor (n : ℕ) (l : List SensorReading) :
    (numberCoresFrom n l).map coreToSensor = l := by
  induction l generalizing n with
  | nil => rfl
  | cons s rest ih => simp [numberCoresFrom, ih, coreToSensor, mkCoreReading]

theorem numberCoresFrom_labels (n : ℕ) (l : List SensorReading) :
    (numberCoresFrom n l).map (fun c => c.label)
      = (List.range l.length).map (fun i => "Core " ++ toString (n + i)) := by
  induction l generalizing n with
  | nil => rfl
  | cons s rest ih =>
    simp only [numberCoresFrom, List.map_cons, List.length_cons, List.range_succ_eq_map,
      List.map_map, ih]
    refine congrArg₂ _ (by simp [mkCoreReading]) ?_
    refine List.map_congr_left fun i _ => ?_
    have h : n + 1 + i = n + (i + 1) := by omega
    simp [Function.comp, h]

theorem coreLE_trans (a b c : SensorReading) :
    coreLE a b → coreLE b c → coreLE a c := by
  simp only [coreLE, decide_eq_true_eq]
  omega

theorem coreLE_total (a b : SensorReading) : coreLE a b || coreLE b a := by
  simp only [coreLE, Bool.or_eq_true, decide_eq_true_eq]
  omega

/-- Once the package slot is filled, the partition loop never empties it. -/
theorem partition_fst_isSome (l : List SensorReading) (s : SensorReading)
    (acc2 : List SensorReading) :
    ((l.foldl partitionStep (some s, acc2)).1).isSome = true := by
  induction l generalizing s acc2 with
  | nil => rfl
  | cons t rest ih =>
    simp only [List.foldl_cons, partitionStep]
    by_cases h : isPackageSensor t = true <;> simp [h, ih]

/-- If the loop ends with no package found, it started with none and
every element was appended to the core list in order. -/
theorem partition_none (l : List SensorReading)
    (acc : Option SensorReading × List SensorReading)
    (h : (l.foldl partitionStep acc).1 = none) :
    acc.1 = none ∧ (l.foldl partitionStep acc).2 = acc.2 ++ l := by
  induction l generalizing acc with
  | nil => exact ⟨h, by simp⟩
  | cons s rest ih =>
    simp only [List.foldl_cons] at h ⊢
    by_cases hp : isPackageSensor s = true
    · exfalso
      have hs := partition_fst_isSome rest s acc.2
      rw [show partitionStep acc s = (some s, acc.2) by simp [partitionStep, hp]] at h
      rw [h] at hs
      exact Bool.false_ne_true hs
    · rw [show partitionStep acc s = (acc.1, acc.2 ++ [s]) by simp [partitionStep, hp]] at h ⊢
      obtain ⟨h1, h2⟩ := ih _ h
      exact ⟨h1, by simpa using h2⟩

/-- Stability of the core sort: for each key value, the readings with
that key come out in their original relative order (so the filtered
subsequences coincide). -/
theorem mergeSort_filter_key (l : List SensorReading) (k : ℕ) :
    (l.mergeSort coreLE).filter (fun s => get_sort_key s == k)
      = l.filter (fun s => get_sort_key s == k) := by
  have hpw : (l.filter (fun s => get_sort_key s == k)).Pairwise (fun a b => coreLE a b) := by
    refine List.pairwise_of_forall_mem_list fun a ha b hb => ?_
    have ha' := (List.mem_filter.mp ha).2
    have hb' := (List.mem_filter.mp hb).2
    simp only [beq_iff_eq] at ha' hb'
    simp [coreLE, ha', hb']
  have hsub : List.Sublist (l.filter (fun s => get_sort_key s == k)) (l.mergeSort coreLE) :=
    List.sublist_mergeSort coreLE_trans coreLE_total hpw (List.filter_sublist l)
  have h2 := hsub.filter (fun s => get_sort_key s == k)
  rw [List.filter_filter] at h2
  have h3 : (fun s => (get_sort_key s == k) && (get_sort_key s == k))
      = (fun s => get_sort_key s == k) := by
    funext s
    exact Bool.and_self _
  rw [h3] at h2
  have hperm : List.Perm ((l.mergeSort coreLE).filter (fun s => get_sort_key s == k))
      (l.filter (fun s => get_sort_key s == k)) :=
    (List.mergeSort_perm l coreLE).filter _
  exact (h2.eq_of_length hperm.length_eq.symm).symm

theorem dashboard_run_length (snaps : List Snapshot) :
    (dashboard_run snaps).length = snaps.length := by
  induction snaps with
  | nil => rfl
  | cons s rest ih => simp [dashboard_run, ih]

/-! ### Claim theorems -/

/-- C2 counterexample: the mapping holds the recognized key "coretemp"
with an empty reading list, yet the collector sets the error (Python's
`or` chain treats the empty list as falsy and `if not all_cpu_sensors`
then fires), where the claim said no error is set. -/
theorem c2_counterexample :
    dictGet rawEmptyCore "coretemp" = some []
  ∧ (get_cpu_data_structured "t" (Except.ok rawEmptyCore)).error = some noCpuMsg := by
  decide

/-- C2 (amended): when no recognized key yields a non-empty reading list
(in particular when a recognized chip key maps to an empty list), the
collector returns overall = none, cores = [], error = the no-CPU-data
message and available_sensor_keys = the mapping's keys. -/
theorem c2_amended (ts : String) (raw : RawTemps)
    (hfalsy : truthyList (selectSensors raw) = false) :
    get_cpu_data_structured ts (Except.ok raw) =
      { timestamp := ts
        overall_cpu_temp := none
        cores_temp := []
        error := some noCpuMsg
        available_sensor_keys := some (raw.map (fun kv => kv.1)) } := by
  simp [get_cpu_data_structured, hfalsy]

/-- C2 witness: the amended statement at the empty-coretemp mapping. -/
theorem c2_amended_witness :
    truthyList (selectSensors rawEmptyCore) = false
  ∧ get_cpu_data_structured "t" (Except.ok rawEmptyCore) =
      { timestamp := "t"
        overall_cpu_temp := none
        cores_temp := []
        error := some noCpuMsg
        available_sensor_keys := some (rawEmptyCore.map (fun kv => kv.1)) } :=
  ⟨by decide, c2_amended "t" rawEmptyCore (by decide)⟩

/-- C4: when none of the three recognized chip keys is in the mapping,
the collector sets exactly the no-CPU-data error message, sets
available_sensor_keys to the keys present in the mapping (in order,
hence as a set), and leaves overall absent and cores empty. -/
theorem c4_no_recognized_chip (ts : String) (raw : RawTemps)
    (h1 : dictGet raw "coretemp" = none)
    (h2 : dictGet raw "k10temp" = none)
    (h3 : dictGet raw "acpitz" = none) :
    (get_cpu_data_structured ts (Except.ok raw)).error = some noCpuMsg
  ∧ (get_cpu_data_structured ts (Except.ok raw)).available_sensor_keys
      = some (raw.map (fun kv => kv.1))
  ∧ (get_cpu_data_structured ts (Except.ok raw)).overall_cpu_temp = none
  ∧ (get_cpu_data_structured ts (Except.ok raw)).cores_temp = [] := by
  have hsel : selectSensors raw = none := by
    simp [selectSensors, h1, h2, h3, pyOr]
  refine ⟨?_, ?_, ?_, ?_⟩ <;> simp [get_cpu_data_structured, hsel, truthyList]

/-- C4 witness: a mapping carrying only unrecognized keys. -/
theorem c4_witness :
    (dictGet rawUnknown "coretemp" = none ∧ dictGet rawUnknown "k10temp" = none
      ∧ dictGet rawUnknown "acpitz" = none)
  ∧ ((get_cpu_data_structured "t" (Except.ok rawUnknown)).error = some noCpuMsg
      ∧ (get_cpu_data_structured "t" (Except.ok rawUnknown)).available_sensor_keys
          = some (rawUnknown.map (fun kv => kv.1))
      ∧ (get_cpu_data_structured "t" (Except.ok rawUnknown)).overall_cpu_temp = none
      ∧ (get_cpu_data_structured "t" (Except.ok rawUnknown)).cores_temp = []) :=
  ⟨⟨by decide, by decide, by decide⟩,
    c4_no_recognized_chip "t" rawUnknown (by decide) (by decide) (by decide)⟩

/-- C5: the color classification is green below 60, yellow in [60, 80),
red at and above 80; in particular 59.9 is green, 60.0 and 79.9 yellow,
80.0 red. -/
theorem c5_color_rule :
    (∀ t : ℚ,
      (get_temp_color t = ANSI_GREEN ↔ t < 60)
      ∧ (get_temp_color t = ANSI_YELLOW ↔ 60 ≤ t ∧ t < 80)
      ∧ (get_temp_color t = ANSI_RED ↔ 80 ≤ t))
  ∧ get_temp_color 59.9 = ANSI_GREEN
  ∧ get_temp_color 60 = ANSI_YELLOW
  ∧ get_temp_color 79.9 = ANSI_YELLOW
  ∧ get_temp_color 80 = ANSI_RED := by
  have hGY : ANSI_GREEN ≠ ANSI_YELLOW := by decide
  have hGR : ANSI_GREEN ≠ ANSI_RED := by decide
  have hYG : ANSI_YELLOW ≠ ANSI_GREEN := by decide
  have hYR : ANSI_YELLOW ≠ ANSI_RED := by decide
  have hRG : ANSI_RED ≠ ANSI_GREEN := by decide
  have hRY : ANSI_RED ≠ ANSI_YELLOW := by decide
  refine ⟨fun t => ?_, ?_, ?_, ?_, ?_⟩
  · unfold get_temp_color
    split_ifs with h1 h2
    · exact ⟨iff_of_true rfl h1,
        iff_of_false hGY (fun hc => absurd h1 (not_lt.mpr hc.1)),
        iff_of_false hGR (fun hc => absurd h1 (not_lt.mpr (by linarith)))⟩
    · exact ⟨iff_of_false hYG h1,
        iff_of_true rfl ⟨not_lt.mp h1, h2⟩,
        iff_of_false hYR (fun hc => absurd h2 (not_lt.mpr hc))⟩
    · exact ⟨iff_of_false hRG h1,
        iff_of_false hRY (fun hc => absurd hc.2 h2),
        iff_of_true rfl (not_lt.mp h2)⟩
  · rw [get_temp_color, if_pos (show (59.9 : ℚ) < 60 by norm_num)]
  · rw [get_temp_color, if_neg (show ¬ (60 : ℚ) < 60 by norm_num),
      if_pos (show (60 : ℚ) < 80 by norm_num)]
  · rw [get_temp_color, if_neg (show ¬ (79.9 : ℚ) < 60 by norm_num),
      if_pos (show (79.9 : ℚ) < 80 by norm_num)]
  · rw [get_temp_color, if_neg (show ¬ (80 : ℚ) < 60 by norm_num),
      if_neg (show ¬ (80 : ℚ) < 80 by norm_num)]

/-- C10: on every collector path the returned dictionary carries its
given capture timestamp, and the export document always has the keys
timestamp, overall_cpu_temp and cores_temp. -/
theorem c10_always_present_keys (ts : String) (src : Except String RawTemps) :
    (get_cpu_data_structured ts src).timestamp = ts
  ∧ jhasKey (snapshotToJson (get_cpu_data_structured ts src)) "timestamp" = true
  ∧ jhasKey (snapshotToJson (get_cpu_data_structured ts src)) "overall_cpu_temp" = true
  ∧ jhasKey (snapshotToJson (get_cpu_data_structured ts src)) "cores_temp" = true := by
  have hk : ∀ s : Snapshot,
      jhasKey (snapshotToJson s) "timestamp" = true
      ∧ jhasKey (snapshotToJson s) "overall_cpu_temp" = true
      ∧ jhasKey (snapshotToJson s) "cores_temp" = true := by
    intro s
    refine ⟨?_, ?_, ?_⟩ <;> simp [snapshotToJson, jhasKey]
  have hts : (get_cpu_data_structured ts src).timestamp = ts := by
    cases src with
    | error e => rfl
    | ok raw =>
      simp only [get_cpu_data_structured]
      split <;> rfl
  exact ⟨hts, hk _⟩

theorem fmt1_45 : fmt1 (45 : ℚ) = "45.0" := by decide

theorem fmt1_723 : fmt1 (72.3 : ℚ) = "72.3" := by
  have h : roundTenths (72.3 : ℚ) = 723 := by
    simp only [roundTenths]
    norm_num
  rw [fmt1, if_neg (show ¬ (72.3 : ℚ) < 0 by norm_num), fmt1nn, h]
  rfl

theorem fmt1_819 : fmt1 (81.9 : ℚ) = "81.9" := by
  have h : roundTenths (81.9 : ℚ) = 819 := by
    simp only [roundTenths]
    norm_num
  rw [fmt1, if_neg (show ¬ (81.9 : ℚ) < 0 by norm_num), fmt1nn, h]
  rfl

/-- C6: for a non-error snapshot the summary renderer emits one line:
the overall segment (value or N/A) followed by one segment per core with
"Core" abbreviated to "C", joined by " | "; on the example snapshot the
output is exactly the expected string. -/
theorem c6_summary_line (s : Snapshot) (_herr : s.error = none) :
    (s.overall_cpu_temp = none →
      short_output s
        = String.intercalate " | " ("OV: N/A" :: s.cores_temp.map coreSegment))
  ∧ (∀ ov, s.overall_cpu_temp = some ov →
      short_output s
        = String.intercalate " | "
            (("OV: " ++ fmt1 ov.current ++ "°C") :: s.cores_temp.map coreSegment))
  ∧ short_output exampleSnapshot = "OV: 45.0°C | C1: 72.3°C | C2: 81.9°C" := by
  refine ⟨fun hov => ?_, fun ov hov => ?_, ?_⟩
  · simp [short_output, hov]
  · simp [short_output, hov]
  · simp only [short_output, exampleSnapshot, coreSegment, List.map,
      fmt1_723, fmt1_819, fmt1_45]
    rfl

/-- C6 witness: the summary line of the example snapshot. -/
theorem c6_witness :
    exampleSnapshot.error = none
  ∧ short_output exampleSnapshot = "OV: 45.0°C | C1: 72.3°C | C2: 81.9°C" :=
  ⟨rfl, (c6_summary_line exampleSnapshot rfl).2.2⟩

/-- C7 counterexample: on an error snapshot whose available_sensor_keys
is present but empty, the dashboard renderer still emits the keys line
(the source tests key presence, not non-emptiness), where the claim said
the line appears only for a non-empty sequence. -/
theorem c7_counterexample :
    errSnapEmptyKeys.available_sensor_keys = some ([] : List String)
  ∧ availableKeysLine [] ∈ display_cpu_temperatures errSnapEmptyKeys := by
  decide

/-- C7 (amended): on an error snapshot (which the collector always hands
over with overall = none), the dashboard renderer emits the title, the
error message, the available-keys line whenever that field is present
(even when the list is empty), and a separator rule; the output never
reads the cores. -/
theorem c7_dashboard_error (s : Snapshot) (e : String) (he : s.error = some e)
    (hov : s.overall_cpu_temp = none) :
    display_cpu_temperatures s =
      [monitorTitle, yellowLine e]
        ++ (match s.available_sensor_keys with
            | some ks => [availableKeysLine ks]
            | none => [])
        ++ [rule55]
  ∧ ∀ cores2, display_cpu_temperatures { s with cores_temp := cores2 }
      = display_cpu_temperatures s := by
  constructor
  · simp [display_cpu_temperatures, he, hov]
  · intro cores2
    simp [display_cpu_temperatures, he, hov]

/-- C7 witness: the error rendering at the concrete empty-keys
snapshot. -/
theorem c7_witness :
    errSnapEmptyKeys.error = some "boom"
  ∧ errSnapEmptyKeys.overall_cpu_temp = none
  ∧ display_cpu_temperatures errSnapEmptyKeys
      = [monitorTitle, yellowLine "boom", availableKeysLine [], rule55] := by
  refine ⟨rfl, rfl, ?_⟩
  have h := (c7_dashboard_error errSnapEmptyKeys "boom" rfl rfl).1
  simpa using h

/-- C8: in a terminal mode an error snapshot makes the driver exit with
code 1, reporting on stderr, without invoking the requested renderer; in
dashboard mode the error snapshot is rendered and the loop continues
with the remaining iterations. -/
theorem c8_driver_error_paths (mode : TermMode) (s : Snapshot)
    (rest : List Snapshot) (he : s.error.isSome = true) :
    (run_terminal mode s).exitCode = 1
  ∧ (run_terminal mode s).rendererInvoked = false
  ∧ (run_terminal mode s).outDoc = none
  ∧ (run_terminal mode s).outLine = none
  ∧ (∃ e, s.error = some e
      ∧ ((run_terminal mode s).stderrLines).head?
          = some (ANSI_RED ++ "Error fetching CPU data: " ++ e ++ ANSI_RESET))
  ∧ dashboard_run (s :: rest) = display_cpu_temperatures s :: dashboard_run rest
  ∧ (dashboard_run (s :: rest)).length = rest.length + 1 := by
  obtain ⟨e, he'⟩ := Option.isSome_iff_exists.mp he
  refine ⟨?_, ?_, ?_, ?_, ⟨e, he', ?_⟩, rfl, ?_⟩ <;>
    simp [run_terminal, he', dashboard_run, dashboard_run_length]

/-- C8 witness: the error snapshot runs through the json-mode driver with
exit code 1 and no renderer call. -/
theorem c8_witness :
    errSnapEmptyKeys.error.isSome = true
  ∧ (run_terminal TermMode.jsonMode errSnapEmptyKeys).exitCode = 1
  ∧ (run_terminal TermMode.jsonMode errSnapEmptyKeys).rendererInvoked = false := by
  refine ⟨by decide, ?_, ?_⟩
  · exact (c8_driver_error_paths TermMode.jsonMode errSnapEmptyKeys [] (by decide)).1
  · exact (c8_driver_error_paths TermMode.jsonMode errSnapEmptyKeys [] (by decide)).2.1

theorem overall_roundtrip (ov : OverallReading) :
    overallFromJson (overallToJson ov) = some ov := by
  simp [overallFromJson, overallToJson, jfieldsOf, jlookup, jstrOf, jnumOf, List.find?]

theorem core_roundtrip (c : CoreReading) :
    coreFromJson (coreToJson c) = some c := by
  simp [coreFromJson, coreToJson, jfieldsOf, jlookup, jstrOf, jnumOf, List.find?]

theorem cores_roundtrip (l : List CoreReading) :
    parseCores (l.map coreToJson) = some l := by
  induction l with
  | nil => rfl
  | cons c rest ih => simp [parseCores, core_roundtrip, ih]

theorem strs_roundtrip (l : List String) :
    parseStrs (l.map Json.str) = some l := by
  induction l with
  | nil => rfl
  | cons a rest ih => simp [parseStrs, jstrOf, ih]

set_option maxHeartbeats 1600000 in
theorem snapshot_roundtrip (s : Snapshot) :
    snapshotFromJson (snapshotToJson s) = some s := by
  rcases s with ⟨ts, ov, cores, err, keys⟩
  rcases ov with _ | ov <;> rcases err with _ | e <;> rcases keys with _ | ks <;>
    simp [snapshotToJson, snapshotFromJson, overallToJson, overallFromJson,
      parseOverallField, parseErrorField, parseKeysField,
      jfieldsOf, jlookup, jstrOf, jnumOf, jarrOf, List.find?, cores_roundtrip, strs_roundtrip]

/-- C9: serializing a non-error snapshot into the export document and
re-parsing it yields a snapshot equal in every field: timestamp, overall
and the cores list with original_label preserved. -/
theorem c9_export_roundtrip (s : Snapshot) (_herr : s.error = none) :
    snapshotFromJson (snapshotToJson s) = some s :=
  snapshot_roundtrip s

/-- C9 witness: the round trip of the example snapshot. -/
theorem c9_witness :
    exampleSnapshot.error = none
  ∧ snapshotFromJson (snapshotToJson exampleSnapshot) = some exampleSnapshot :=
  ⟨rfl, c9_export_roundtrip exampleSnapshot rfl⟩

/-- On the successful path the collector returns the populated record. -/
theorem collector_ok_of_truthy (ts : String) (raw : RawTemps)
    (ht : truthyList (selectSensors raw) = true) :
    get_cpu_data_structured ts (Except.ok raw) =
      { timestamp := ts
        overall_cpu_temp := ((partitionSensors ((selectSensors raw).getD [])).1).map overallOf
        cores_temp := numberCoresFrom 1
          (((partitionSensors ((selectSensors raw).getD [])).2).mergeSort coreLE)
        error := none
        available_sensor_keys := none } := by
  simp [get_cpu_data_structured, ht]

/-- C3: every snapshot the collector returns is in exactly one display
state: error set (and then no overall and no cores), or overall present
with no error, or no overall but a non-empty core list with no error. -/
theorem c3_display_state (ts : String) (src : Except String RawTemps) :
    ((get_cpu_data_structured ts src).error.isSome = true
        ∧ (get_cpu_data_structured ts src).overall_cpu_temp = none
        ∧ (get_cpu_data_structured ts src).cores_temp = [])
  ∨ ((get_cpu_data_structured ts src).error = none
        ∧ ((get_cpu_data_structured ts src).overall_cpu_temp).isSome = true)
  ∨ ((get_cpu_data_structured ts src).error = none
        ∧ (get_cpu_data_structured ts src).overall_cpu_temp = none
        ∧ (get_cpu_data_structured ts src).cores_temp ≠ []) := by
  cases src with
  | error e => exact Or.inl ⟨rfl, rfl, rfl⟩
  | ok raw =>
    cases hs : selectSensors raw with
    | none =>
      have hf : truthyList (selectSensors raw) = false := by rw [hs]; rfl
      left
      refine ⟨?_, ?_, ?_⟩ <;> simp [get_cpu_data_structured, hf]
    | some ls =>
      cases ls with
      | nil =>
        have hf : truthyList (selectSensors raw) = false := by rw [hs]; rfl
        left
        refine ⟨?_, ?_, ?_⟩ <;> simp [get_cpu_data_structured, hf]
      | cons a l =>
        have ht : truthyList (selectSensors raw) = true := by rw [hs]; rfl
        have hgd : (selectSensors raw).getD [] = a :: l := by rw [hs]; rfl
        rw [collector_ok_of_truthy ts raw ht, hgd]
        cases hp : (partitionSensors (a :: l)).1 with
        | some pkg =>
          right; left
          simp [hp]
        | none =>
          right; right
          refine ⟨rfl, by simp [hp], ?_⟩
          have hsnd := (partition_none (a :: l) (none, []) hp).2
          have hlen : (numberCoresFrom 1
              (((partitionSensors (a :: l)).2).mergeSort coreLE)).length = l.length + 1 := by
            rw [numberCoresFrom_length, List.length_mergeSort]
            rw [show (partitionSensors (a :: l)).2
                = ((a :: l).foldl partitionStep (none, [])).2 from rfl, hsnd]
            simp
          show numberCoresFrom 1 (((partitionSensors (a :: l)).2).mergeSort coreLE) ≠ []
          intro hnil
          rw [hnil] at hlen
          simp at hlen

/-- C1 (amended): on a successful collection with N non-package
candidates the collector emits N cores labeled "Core 1".."Core N",
sorted ascending by the key "first digit run of original_label, 9999
when the label has no digits" (so a digit-free label sorts after labels
whose digit run is below 9999 but not after larger ones), and the sort
is stable: for each key value the readings keep their original relative
order. -/
theorem c1_cores_sorted (ts : String) (raw : RawTemps) (sensors : List SensorReading)
    (hsel : selectSensors raw = some sensors) (hne : sensors ≠ [])
    (hpkg : (sensors.filter (fun s => isPackageSensor s)).length ≤ 1)
    (candidates : List SensorReading)
    (hcand : candidates = (partitionSensors sensors).2) :
    (get_cpu_data_structured ts (Except.ok raw)).cores_temp.length = candidates.length
  ∧ (get_cpu_data_structured ts (Except.ok raw)).cores_temp.map (fun c => c.label)
      = (List.range candidates.length).map (fun i => "Core " ++ toString (i + 1))
  ∧ (get_cpu_data_structured ts (Except.ok raw)).cores_temp.Pairwise
      (fun c d => labelSortKey c.original_label ≤ labelSortKey d.original_label)
  ∧ ∀ k, ((get_cpu_data_structured ts (Except.ok raw)).cores_temp.map coreToSensor).filter
        (fun s => get_sort_key s == k)
      = candidates.filter (fun s => get_sort_key s == k) := by
  obtain ⟨a, l, rfl⟩ : ∃ a l, sensors = a :: l := by
    cases sensors with
    | nil => exact absurd rfl hne
    | cons a l => exact ⟨a, l, rfl⟩
  have ht : truthyList (selectSensors raw) = true := by rw [hsel]; rfl
  have hgd : (selectSensors raw).getD [] = a :: l := by rw [hsel]; rfl
  rw [collector_ok_of_truthy ts raw ht, hgd, hcand]
  refine ⟨?_, ?_, ?_, ?_⟩
  · show (numberCoresFrom 1 (((partitionSensors (a :: l)).2).mergeSort coreLE)).length
      = ((partitionSensors (a :: l)).2).length
    rw [numberCoresFrom_length, List.length_mergeSort]
  · show (numberCoresFrom 1
        (((partitionSensors (a :: l)).2).mergeSort coreLE)).map (fun c => c.label)
      = (List.range ((partitionSensors (a :: l)).2).length).map
          (fun i => "Core " ++ toString (i + 1))
    rw [numberCoresFrom_labels, List.length_mergeSort]
    exact List.map_congr_left fun i _ => by rw [Nat.add_comm]
  · show (numberCoresFrom 1 (((partitionSensors (a :: l)).2).mergeSort coreLE)).Pairwise
      (fun c d => labelSortKey c.original_label ≤ labelSortKey d.original_label)
    have hsorted := List.sorted_mergeSort coreLE_trans coreLE_total
      ((partitionSensors (a :: l)).2)
    have hmap : (numberCoresFrom 1
        ((((partitionSensors (a :: l)).2)).mergeSort coreLE)).map coreToSensor
        = ((partitionSensors (a :: l)).2).mergeSort coreLE :=
      numberCoresFrom_map_toSensor 1 _
    have hpw : ((numberCoresFrom 1
        ((((partitionSensors (a :: l)).2)).mergeSort coreLE)).map coreToSensor).Pairwise
        (fun x y => coreLE x y = true) := by
      rw [hmap]
      exact hsorted
    have hpw2 := List.pairwise_map.mp hpw
    refine hpw2.imp ?_
    intro c d h
    simpa [coreLE, get_sort_key, coreToSensor, decide_eq_true_eq] using h
  · intro k
    show ((numberCoresFrom 1 (((partitionSensors (a :: l)).2).mergeSort coreLE)).map
        coreToSensor).filter (fun s => get_sort_key s == k)
      = ((partitionSensors (a :: l)).2).filter (fun s => get_sort_key s == k)
    rw [numberCoresFrom_map_toSensor, mergeSort_filter_key]

unseal List.merge List.mergeSort in
/-- C1 counterexample: "zz" has no digits and "Core 10000" has a digit
run larger than the 9999 default key, so the digit-free label comes out
first, against the claim that digit-free labels sort after every label
with digits. -/
theorem c1_counterexample :
    firstDigitRun "zz".toList = none
  ∧ labelSortKey "Core 10000" = 10000
  ∧ (get_cpu_data_structured "t" (Except.ok rawBigDigits)).cores_temp.map
      (fun c => c.original_label) = ["zz", "Core 10000"] := by
  decide

/-- C1 witness: the amended statement at a typical out-of-order
coretemp reading list. -/
theorem c1_witness :
    (selectSensors rawTypical = some typicalSensors
      ∧ typicalSensors ≠ []
      ∧ (typicalSensors.filter (fun s => isPackageSensor s)).length ≤ 1
      ∧ typicalCandidates = (partitionSensors typicalSensors).2)
  ∧ (get_cpu_data_structured "t" (Except.ok rawTypical)).cores_temp.length
        = typicalCandidates.length
  ∧ (get_cpu_data_structured "t" (Except.ok rawTypical)).cores_temp.map (fun c => c.label)
        = (List.range typicalCandidates.length).map (fun i => "Core " ++ toString (i + 1)) := by
  have h := c1_cores_sorted "t" rawTypical typicalSensors (by decide) (by decide)
    (by decide) typicalCandidates (by decide)
  exact ⟨⟨by decide, by decide, by decide, by decide⟩, h.1, h.2.1⟩

end CpuTemp
